import Mathlib

/-!
Shallow embedding of the Go embedding layer of tor-static-builder:
the `embed` package (global Tor instance / onion-address accessors,
`Config`, `StartTor`, `StartTorWithBootstrap`, `StopTor`, `QuickStart`)
and the `embed/tor048` package (`embeddedProcess` with `Start`, `Wait`,
`EmbeddedControlConn`).

External calls (the Tor C API behind cgo, and the bine library's
`tor.Start`, `EnableNetwork`, `Close`, as well as `net.FileConn`) are
modelled as oracle parameters: the embedding fixes only the control flow
that the repository's own Go code performs around them.

Go `error` values are modelled as `Option String` (`none` = nil error)
or `Except String α` where a result is also produced; Go channels and
contexts are modelled by explicit events.
-/

namespace TorStaticBuilder

/-- A Go `context.Context`, reduced to the only observable the code uses:
whether `ctx.Done()` has fired and which error `ctx.Err()` then reports. -/
structure Ctx where
  doneErr : Option String
deriving DecidableEq

/-- Go `context.Background()`: a context whose `Done` channel never fires. -/
def background : Ctx := ⟨none⟩

/-- State of a `tor048.embeddedProcess`. The `doneCh` field records whether
the done channel is non-nil, i.e. whether `Start` has succeeded. -/
structure EmbeddedProcess where
  ctx : Option Ctx
  args : List String
  doneCh : Bool
deriving DecidableEq

/-- Observable side effects of one `Start` call: the command line handed to
`tor_main_configuration_set_command_line` (if it was called at all) and
whether a background goroutine running `tor_run_main` was spawned. -/
structure StartEffects where
  cmdLinePassed : Option (List String)
  spawned : Bool
deriving DecidableEq

/-- Go `embeddedCreator.New`: builds a fresh process with a nil done channel. -/
def EmbeddedProcess.New (ctx : Option Ctx) (args : List String) : EmbeddedProcess :=
  { ctx := ctx, args := args, doneCh := false }

/-- Go `embeddedProcess.Start`. `setCmdLineCode` is the return code of the
external `tor_main_configuration_set_command_line` call. Returns the Go
error, the updated process state, and the observable effects. -/
def EmbeddedProcess.Start (e : EmbeddedProcess) (setCmdLineCode : Int) :
    Option String × EmbeddedProcess × StartEffects :=
  if e.doneCh then
    (some "already started", e, { cmdLinePassed := none, spawned := false })
  else
    let args := "tor" :: e.args
    if setCmdLineCode ≠ 0 then
      (some ("failed to set command line args, code: " ++ toString setCmdLineCode),
       e, { cmdLinePassed := some args, spawned := false })
    else
      (none, { e with doneCh := true },
       { cmdLinePassed := some args, spawned := true })

/-- The event that wakes up the `select` in `embeddedProcess.Wait`: either
the process context became done (with its error), or the background
goroutine delivered `tor_run_main`'s exit code on the done channel. -/
inductive WaitEvent where
  | ctxDone (err : String)
  | taskDone (code : Int)
deriving DecidableEq

/-- Whether a wake-up event can actually occur for process `e`: a
`ctxDone err` event requires the effective context (the process context,
or `context.Background()` when it is nil) to be done with error `err`. -/
def WaitEvent.possible (e : EmbeddedProcess) : WaitEvent → Bool
  | .ctxDone err => (e.ctx.getD background).doneErr == some err
  | .taskDone _ => true

/-- Go `embeddedProcess.Wait`, as a function of the event that unblocked the
`select`. Returns the Go error (`none` = nil). -/
def EmbeddedProcess.Wait (e : EmbeddedProcess) (ev : WaitEvent) : Option String :=
  if e.doneCh then
    match ev with
    | .ctxDone err => some err
    | .taskDone code =>
        if code = 0 then none
        else some ("command completed with error exit code: " ++ toString code)
  else
    some "not started"

/-- A `net.Conn` handle, abstracted to the descriptor it wraps. -/
structure Conn where
  fd : Int
deriving DecidableEq

/-- Go `embeddedProcess.EmbeddedControlConn`. `setupControlSocket` is the
descriptor returned by the external `tor_main_configuration_setup_control_socket`
call and `fileConn` the behaviour of the external `net.FileConn`
conversion. Returns the `net.Conn` (`none` = nil) and the Go error. -/
def EmbeddedControlConn (setupControlSocket : Int)
    (fileConn : Int → Except String Conn) : Option Conn × Option String :=
  match fileConn setupControlSocket with
  | .ok conn => (some conn, none)
  | .error msg =>
      (none, some ("unable to create conn from control socket: " ++ msg))

/-- A `*tor.Tor` instance from the bine library, abstracted to an identity
and the behaviour of its external `Close` method. -/
structure TorInstance where
  id : Nat
  closeErr : Option String
deriving DecidableEq

/-- The package-level mutable state of the `embed` package: the
`atomic.Pointer[tor.Tor]` global and the `atomic.Pointer[string]` onion
address global (`none` = nil pointer). -/
structure EmbedState where
  torInstance : Option TorInstance
  onionAddress : Option String
deriving DecidableEq

/-- The zero value of the two package-level atomics before any store. -/
def initialEmbedState : EmbedState := { torInstance := none, onionAddress := none }

/-- Go `GetTorInstance`: load of the global instance pointer. -/
def GetTorInstance (s : EmbedState) : Option TorInstance := s.torInstance

/-- Go `GetOnionAddress`: load of the onion-address pointer, with the nil
pointer read back as the empty string. -/
def GetOnionAddress (s : EmbedState) : String :=
  match s.onionAddress with
  | none => ""
  | some addr => addr

/-- Go `SetOnionAddress`: store of a pointer to the given string. -/
def SetOnionAddress (addr : String) (s : EmbedState) : EmbedState :=
  { s with onionAddress := some addr }

/-- Go `StopTor`: nil instance returns nil error with no store; a `Close`
error is wrapped and returned with no store; otherwise the global
instance pointer is cleared. -/
def StopTor (s : EmbedState) : Option String × EmbedState :=
  match s.torInstance with
  | none => (none, s)
  | some t =>
      match t.closeErr with
      | some msg => (some ("failed to stop Tor: " ++ msg), s)
      | none => (none, { s with torInstance := none })

/-- The fields of the bine `tor.StartConf` that `StartTor` populates. -/
structure StartConf where
  dataDir : String
  extraArgs : List String
  useEmbeddedControlConn : Bool
  noAutoSocksPort : Bool
deriving DecidableEq

/-- Behaviour of the external bine library: the result of `tor.Start` for a
given start configuration, and the result of `t.EnableNetwork` under a
timeout context of the given duration in nanoseconds (`none` = nil error). -/
structure TorEnv where
  torStart : StartConf → Except String TorInstance
  enableNetwork : TorInstance → Nat → Option String

/-- Go `StartTor` (with the `extraArgs` variadic made explicit). Returns the
result, the updated package state, and the `StartConf` passed to the
external `tor.Start`. -/
def StartTor (env : TorEnv) (s : EmbedState) (dataDir : String)
    (extraArgs : List String) :
    Except String TorInstance × EmbedState × StartConf :=
  let startConf : StartConf :=
    { dataDir := dataDir, extraArgs := extraArgs,
      useEmbeddedControlConn := true, noAutoSocksPort := true }
  match env.torStart startConf with
  | .error msg => (.error ("failed to start embedded Tor: " ++ msg), s, startConf)
  | .ok t => (.ok t, { s with torInstance := some t }, startConf)

/-- Go `StartTorWithBootstrap`. The trailing `Bool` records whether `t.Close()`
was invoked (it is, exactly on the failed-bootstrap path). -/
def StartTorWithBootstrap (env : TorEnv) (s : EmbedState) (dataDir : String)
    (timeout : Nat) :
    Except String TorInstance × EmbedState × StartConf × Bool :=
  match StartTor env s dataDir [] with
  | (.error msg, s1, conf) => (.error msg, s1, conf, false)
  | (.ok t, s1, conf) =>
      match env.enableNetwork t timeout with
      | some msg => (.error ("failed to bootstrap Tor: " ++ msg), s1, conf, true)
      | none => (.ok t, s1, conf, false)

/-- Go `time.Second` in nanoseconds. -/
def timeSecond : Nat := 1000000000

/-- Go `time.Minute` in nanoseconds. -/
def timeMinute : Nat := 60 * timeSecond

/-- The `embed.Config` struct. `BootstrapTimeout` is a `time.Duration` in
nanoseconds; the ports are Go `int`s. -/
structure Config where
  DataDir : String
  SocksPort : Int
  ControlPort : Int
  ClientOnly : Bool
  BootstrapTimeout : Nat
deriving DecidableEq

/-- Go `DefaultConfig`. -/
def DefaultConfig : Config :=
  { DataDir := "/tmp/tor-data", SocksPort := 0, ControlPort := 0,
    ClientOnly := true, BootstrapTimeout := 3 * timeMinute }

/-- Go `Config.BuildExtraArgs`, mirroring the sequential appends of the Go
code (`fmt.Sprintf "%d"` of a Go int is `toString` of the `Int`). -/
def Config.BuildExtraArgs (c : Config) : List String :=
  let args : List String := []
  let args :=
    if c.SocksPort = 0 then args ++ ["--SocksPort", "0"]
    else args ++ ["--SocksPort", toString c.SocksPort]
  let args :=
    if c.ControlPort = 0 then args ++ ["--ControlPort", "auto"]
    else args ++ ["--ControlPort", toString c.ControlPort]
  let args :=
    if c.ClientOnly then args ++ ["--ClientOnly", "1"] else args
  args

/-- Go `QuickStart`: `StartTorWithBootstrap` at `DefaultConfig`'s data
directory and bootstrap timeout. -/
def QuickStart (env : TorEnv) (s : EmbedState) :
    Except String TorInstance × EmbedState × StartConf × Bool :=
  let config := DefaultConfig
  StartTorWithBootstrap env s config.DataDir config.BootstrapTimeout

/-! ## Theorems -/

/-- Claim C1: for every embeddedProcess, the first call to `Start` either
succeeds (nil error) or fails with an error, and every `Start` after a
successful `Start` returns the "already started" error without spawning
another background task and without modifying the process state. -/
theorem c1_double_start_guard (e e1 : EmbeddedProcess) (code : Int)
    (eff : StartEffects) (h : e.Start code = (none, e1, eff)) :
    ((e.Start code).1 = none ∨ (e.Start code).1.isSome)
    ∧ ∀ code2 : Int, e1.Start code2 =
        (some "already started", e1, { cmdLinePassed := none, spawned := false }) := by
  constructor
  · cases hr : (e.Start code).1 <;> simp
  · intro code2
    have hdone : e1.doneCh = true := by
      by_cases hd : e.doneCh
      · simp [EmbeddedProcess.Start, hd] at h
      · simp only [EmbeddedProcess.Start, hd, Bool.false_eq_true, if_false] at h
        by_cases hc : code ≠ 0
        · simp [hc] at h
        · simp [hc] at h
          rw [← h.1]
    simp [EmbeddedProcess.Start, hdone]

/-- Witness for C1 at a concrete process: starting a fresh process with
a zero configuration code succeeds, and a second start is rejected. -/
theorem c1_double_start_guard_witness :
    (EmbeddedProcess.New none ["--SocksPort", "0"]).Start 0 =
      (none, ⟨none, ["--SocksPort", "0"], true⟩,
        { cmdLinePassed := some ["tor", "--SocksPort", "0"], spawned := true })
    ∧ EmbeddedProcess.Start ⟨none, ["--SocksPort", "0"], true⟩ 0 =
        (some "already started", ⟨none, ["--SocksPort", "0"], true⟩,
          { cmdLinePassed := none, spawned := false }) :=
  ⟨by decide,
   (c1_double_start_guard (EmbeddedProcess.New none ["--SocksPort", "0"])
      ⟨none, ["--SocksPort", "0"], true⟩ 0
      { cmdLinePassed := some ["tor", "--SocksPort", "0"], spawned := true }
      (by decide)).2 0⟩

/-- Helper: a successful `Start` can only have happened on a not-yet-started
process with configuration code 0; it sets the done channel and records the
`"tor"`-prefixed command line as passed and the goroutine as spawned. -/
theorem start_ok_inversion (e e1 : EmbeddedProcess) (code : Int)
    (eff : StartEffects) (h : e.Start code = (none, e1, eff)) :
    e.doneCh = false ∧ code = 0 ∧ e1 = { e with doneCh := true }
    ∧ eff = { cmdLinePassed := some ("tor" :: e.args), spawned := true } := by
  by_cases hd : e.doneCh
  · simp [EmbeddedProcess.Start, hd] at h
  · by_cases hc : code = 0
    · simp only [EmbeddedProcess.Start, hd, Bool.false_eq_true, if_false, hc,
        ne_eq, not_true_eq_false, Prod.mk.injEq] at h
      exact ⟨by simpa using hd, hc, h.2.1.symm, h.2.2.symm⟩
    · simp [EmbeddedProcess.Start, hd, hc] at h

/-- Claim C2: `Wait` before a successful `Start` returns the "not started"
error; after a successful `Start`, a context-done wake-up returns the
context's error, a task-completion wake-up returns nil exactly for exit
code 0 and an error mentioning the exit code otherwise; and with a nil
process context no context-done wake-up is possible, so `Wait` waits
without any deadline. -/
theorem c2_wait_semantics (e e1 : EmbeddedProcess) (code : Int)
    (eff : StartEffects) :
    (e.doneCh = false → ∀ ev, e.Wait ev = some "not started")
    ∧ (e.Start code = (none, e1, eff) →
        (∀ err, WaitEvent.possible e1 (.ctxDone err) = true →
            e1.Wait (.ctxDone err) = some err)
        ∧ (∀ tc : Int, e1.Wait (.taskDone tc) = none ↔ tc = 0)
        ∧ (∀ tc : Int, tc ≠ 0 → e1.Wait (.taskDone tc) =
            some ("command completed with error exit code: " ++ toString tc))
        ∧ (e.ctx = none → ∀ ev, WaitEvent.possible e1 ev = true →
            ∃ tc, ev = WaitEvent.taskDone tc)) := by
  constructor
  · intro hd ev
    simp [EmbeddedProcess.Wait, hd]
  · intro h
    obtain ⟨hd, hc, he1, heff⟩ := start_ok_inversion e e1 code eff h
    have hdone : e1.doneCh = true := by rw [he1]
    refine ⟨?_, ?_, ?_, ?_⟩
    · intro err _
      simp [EmbeddedProcess.Wait, hdone]
    · intro tc
      by_cases htc : tc = 0 <;> simp [EmbeddedProcess.Wait, hdone, htc]
    · intro tc htc
      simp [EmbeddedProcess.Wait, hdone, htc]
    · intro hctx ev hev
      cases ev with
      | ctxDone err =>
          rw [he1] at hev
          simp [WaitEvent.possible, hctx, background] at hev
      | taskDone tc => exact ⟨tc, rfl⟩

/-- Witness for C2: a started process with a cancelled context still
reports a nonzero exit code as an error naming the code. -/
theorem c2_wait_semantics_witness :
    EmbeddedProcess.Wait ⟨some ⟨some "context canceled"⟩, [], true⟩
        (WaitEvent.taskDone 3) =
      some ("command completed with error exit code: " ++ toString (3 : Int)) :=
  ((c2_wait_semantics (EmbeddedProcess.New (some ⟨some "context canceled"⟩) [])
      ⟨some ⟨some "context canceled"⟩, [], true⟩ 0
      { cmdLinePassed := some ["tor"], spawned := true }).2
    (by decide)).2.2.1 3 (by decide)

/-- Claim C4: a successful `Start` of a process created with argument list
`args` passes to `tor_main_configuration_set_command_line` exactly the
command line `"tor" :: args`: length `args.length + 1`, element 0 is
`"tor"`, and element `i + 1` is `args[i]`. -/
theorem c4_command_line_marshaling (ctx : Option Ctx) (args : List String)
    (code : Int) (e1 : EmbeddedProcess) (eff : StartEffects)
    (h : (EmbeddedProcess.New ctx args).Start code = (none, e1, eff)) :
    eff.cmdLinePassed = some ("tor" :: args)
    ∧ ("tor" :: args).length = args.length + 1
    ∧ ("tor" :: args)[0]? = some "tor"
    ∧ ∀ i : Nat, i < args.length → ("tor" :: args)[i + 1]? = args[i]? := by
  obtain ⟨_, _, _, heff⟩ :=
    start_ok_inversion (EmbeddedProcess.New ctx args) e1 code eff h
  refine ⟨by rw [heff]; rfl, by simp, by simp, ?_⟩
  intro i _
  simp

/-- Witness for C4 at the concrete argument list `["--ClientOnly", "1"]`. -/
theorem c4_command_line_marshaling_witness :
    (EmbeddedProcess.New none ["--ClientOnly", "1"]).Start 0 =
      (none, ⟨none, ["--ClientOnly", "1"], true⟩,
        { cmdLinePassed := some ["tor", "--ClientOnly", "1"], spawned := true })
    ∧ ("tor" :: ["--ClientOnly", "1"])[1 + 1]? = (["--ClientOnly", "1"] : List String)[1]? :=
  ⟨by decide,
   (c4_command_line_marshaling none ["--ClientOnly", "1"] 0
      ⟨none, ["--ClientOnly", "1"], true⟩
      { cmdLinePassed := some ["tor", "--ClientOnly", "1"], spawned := true }
      (by decide)).2.2.2 1 (by decide)⟩

/-- Claim C3: `StopTor` with no running instance returns nil and changes
no state, and after any `StopTor` call returning nil the global instance
pointer is nil. -/
theorem c3_stop_tor_double_stop (s : EmbedState) :
    (GetTorInstance s = none → StopTor s = (none, s))
    ∧ ((StopTor s).1 = none → GetTorInstance (StopTor s).2 = none) := by
  obtain ⟨ti, oa⟩ := s
  cases ti with
  | none => exact ⟨fun _ => rfl, fun _ => rfl⟩
  | some t =>
      refine ⟨fun hnone => by simp [GetTorInstance] at hnone, fun hok => ?_⟩
      cases hce : t.closeErr with
      | none => simp [StopTor, GetTorInstance, hce]
      | some msg => simp [StopTor, hce] at hok

/-- Witness for C3 at the initial state: stopping with no instance running
is a no-op and leaves the instance pointer nil. -/
theorem c3_stop_tor_double_stop_witness :
    StopTor initialEmbedState = (none, initialEmbedState)
    ∧ GetTorInstance (StopTor initialEmbedState).2 = none :=
  ⟨(c3_stop_tor_double_stop initialEmbedState).1 (by decide),
   (c3_stop_tor_double_stop initialEmbedState).2 (by decide)⟩

/-- Claim C8: if the running instance's `Close` returns an error, `StopTor`
returns the wrapped "failed to stop Tor" error and leaves the global
instance pointer unchanged, so `GetTorInstance` still returns the same
instance. -/
theorem c8_stop_tor_atomic_on_failure (s : EmbedState) (t : TorInstance)
    (msg : String) (hinst : GetTorInstance s = some t)
    (hclose : t.closeErr = some msg) :
    StopTor s = (some ("failed to stop Tor: " ++ msg), s)
    ∧ GetTorInstance (StopTor s).2 = some t := by
  have hs : s.torInstance = some t := hinst
  refine ⟨by simp [StopTor, hs, hclose], ?_⟩
  simp [StopTor, hs, hclose, GetTorInstance]

/-- Witness for C8: with an instance whose `Close` fails with "boom", the
error is wrapped and the instance is still registered afterwards. -/
theorem c8_stop_tor_atomic_on_failure_witness :
    StopTor ⟨some ⟨7, some "boom"⟩, none⟩ =
      (some ("failed to stop Tor: " ++ "boom"), ⟨some ⟨7, some "boom"⟩, none⟩)
    ∧ GetTorInstance (StopTor ⟨some ⟨7, some "boom"⟩, none⟩).2 =
        some ⟨7, some "boom"⟩ :=
  c8_stop_tor_atomic_on_failure ⟨some ⟨7, some "boom"⟩, none⟩ ⟨7, some "boom"⟩
    "boom" rfl rfl

/-- Helper: `StopTor` never writes the onion-address pointer. -/
theorem stopTor_onion_frame (s : EmbedState) :
    (StopTor s).2.onionAddress = s.onionAddress := by
  obtain ⟨ti, oa⟩ := s
  cases ti with
  | none => rfl
  | some t => rcases hce : t.closeErr with _ | msg <;> simp [StopTor, hce]

/-- Helper: `StartTor` never writes the onion-address pointer. -/
theorem startTor_onion_frame (env : TorEnv) (s : EmbedState) (dataDir : String)
    (extraArgs : List String) :
    (StartTor env s dataDir extraArgs).2.1.onionAddress = s.onionAddress := by
  rcases h : env.torStart ⟨dataDir, extraArgs, true, true⟩ with msg | t <;>
    simp [StartTor, h]

/-- Helper: `StartTorWithBootstrap` never writes the onion-address pointer. -/
theorem startTorWithBootstrap_onion_frame (env : TorEnv) (s : EmbedState)
    (dataDir : String) (timeout : Nat) :
    (StartTorWithBootstrap env s dataDir timeout).2.1.onionAddress =
      s.onionAddress := by
  unfold StartTorWithBootstrap
  rcases hst : StartTor env s dataDir [] with ⟨r, s1, conf⟩
  have hs1 : s1.onionAddress = s.onionAddress := by
    have h := startTor_onion_frame env s dataDir []
    rw [hst] at h
    exact h
  cases r with
  | error msg => exact hs1
  | ok t =>
      rcases hen : env.enableNetwork t timeout with _ | msg <;> simp [hen, hs1]

/-- Claim C5: the onion-address accessors round-trip: after
`SetOnionAddress a` (any string, the empty one included),
`GetOnionAddress` returns `a` and keeps returning `a` across the other
operations of the package until the next `SetOnionAddress`; before any
`SetOnionAddress`, `GetOnionAddress` returns the empty string. -/
theorem c5_onion_address_round_trip (a : String) (s : EmbedState) :
    GetOnionAddress (SetOnionAddress a s) = a
    ∧ GetOnionAddress initialEmbedState = ""
    ∧ GetOnionAddress (StopTor (SetOnionAddress a s)).2 = a
    ∧ (∀ env dataDir extraArgs,
        GetOnionAddress (StartTor env (SetOnionAddress a s) dataDir extraArgs).2.1 = a)
    ∧ (∀ env dataDir timeout,
        GetOnionAddress
          (StartTorWithBootstrap env (SetOnionAddress a s) dataDir timeout).2.1 = a)
    ∧ ∀ env, GetOnionAddress (QuickStart env (SetOnionAddress a s)).2.1 = a := by
  have hget : ∀ s2 : EmbedState, s2.onionAddress = some a → GetOnionAddress s2 = a := by
    intro s2 h2
    simp [GetOnionAddress, h2]
  refine ⟨rfl, rfl, ?_, ?_, ?_, ?_⟩
  · exact hget _ (by rw [stopTor_onion_frame]; rfl)
  · intro env dataDir extraArgs
    exact hget _ (by rw [startTor_onion_frame]; rfl)
  · intro env dataDir timeout
    exact hget _ (by rw [startTorWithBootstrap_onion_frame]; rfl)
  · intro env
    exact hget _ (by rw [QuickStart, startTorWithBootstrap_onion_frame]; rfl)

/-- Claim C6: `BuildExtraArgs` returns exactly the SocksPort pair (literal
"0" for port 0, decimal otherwise), then the ControlPort pair ("auto" for
port 0, decimal otherwise), then `--ClientOnly 1` exactly when
`ClientOnly` is set; the result is non-empty, of length 4 or 6, and
depends on no other field of the configuration. -/
theorem c6_build_extra_args (c : Config) :
    c.BuildExtraArgs =
      ["--SocksPort", if c.SocksPort = 0 then "0" else toString c.SocksPort,
       "--ControlPort", if c.ControlPort = 0 then "auto" else toString c.ControlPort]
      ++ (if c.ClientOnly then ["--ClientOnly", "1"] else [])
    ∧ c.BuildExtraArgs ≠ []
    ∧ (c.BuildExtraArgs.length = 4 ∨ c.BuildExtraArgs.length = 6)
    ∧ ∀ c2 : Config, c2.SocksPort = c.SocksPort → c2.ControlPort = c.ControlPort →
        c2.ClientOnly = c.ClientOnly → c2.BuildExtraArgs = c.BuildExtraArgs := by
  have hshape : ∀ c3 : Config, c3.BuildExtraArgs =
      ["--SocksPort", if c3.SocksPort = 0 then "0" else toString c3.SocksPort,
       "--ControlPort", if c3.ControlPort = 0 then "auto" else toString c3.ControlPort]
      ++ (if c3.ClientOnly then ["--ClientOnly", "1"] else []) := by
    intro c3
    unfold Config.BuildExtraArgs
    by_cases hsp : c3.SocksPort = 0 <;> by_cases hcp : c3.ControlPort = 0 <;>
      by_cases hco : c3.ClientOnly <;> simp [hsp, hcp, hco]
  refine ⟨hshape c, ?_, ?_, ?_⟩
  · rw [hshape c]
    simp
  · rw [hshape c]
    by_cases hco : c.ClientOnly <;> simp [hco]
  · intro c2 hsp hcp hco
    rw [hshape c2, hshape c, hsp, hcp, hco]

/-- Witness for C6: a config differing from the default only in fields
other than the ports and the client flag produces the same arguments. -/
theorem c6_build_extra_args_witness :
    Config.BuildExtraArgs ⟨"/other-dir", 0, 0, true, 0⟩ =
      DefaultConfig.BuildExtraArgs :=
  (c6_build_extra_args DefaultConfig).2.2.2 ⟨"/other-dir", 0, 0, true, 0⟩
    rfl rfl rfl

/-- Claim C7: `EmbeddedControlConn` wraps the descriptor from
`tor_main_configuration_setup_control_socket` into a connection: a
non-nil connection and nil error when the conversion succeeds, and a nil
connection with the wrapped "unable to create conn from control socket"
error exactly when the conversion fails. -/
theorem c7_embedded_control_conn (fd : Int)
    (fileConn : Int → Except String Conn) :
    (∀ conn, fileConn fd = .ok conn →
        EmbeddedControlConn fd fileConn = (some conn, none))
    ∧ ∀ msg, fileConn fd = .error msg →
        EmbeddedControlConn fd fileConn =
          (none, some ("unable to create conn from control socket: " ++ msg)) := by
  constructor
  · intro conn h
    simp [EmbeddedControlConn, h]
  · intro msg h
    simp [EmbeddedControlConn, h]

/-- Witness for C7: a failing descriptor-to-connection conversion yields a
nil connection and the wrapped error. -/
theorem c7_embedded_control_conn_witness :
    EmbeddedControlConn 5 (fun _ => Except.error "bad file descriptor") =
      (none, some ("unable to create conn from control socket: "
        ++ "bad file descriptor")) :=
  (c7_embedded_control_conn 5 (fun _ => Except.error "bad file descriptor")).2
    "bad file descriptor" rfl

/-- Claim C9: when `StartTor` succeeds but the bootstrap (`EnableNetwork`)
fails, `StartTorWithBootstrap` closes the instance and returns the
wrapped bootstrap error, yet the global instance pointer stored by
`StartTor` is not cleared, so `GetTorInstance` afterwards returns the
closed instance rather than nil. -/
theorem c9_bootstrap_failure_keeps_instance (env : TorEnv) (s : EmbedState)
    (dataDir : String) (timeout : Nat) (t : TorInstance) (msg : String)
    (hstart : env.torStart ⟨dataDir, [], true, true⟩ = .ok t)
    (hboot : env.enableNetwork t timeout = some msg) :
    StartTorWithBootstrap env s dataDir timeout =
      (.error ("failed to bootstrap Tor: " ++ msg),
       { s with torInstance := some t }, ⟨dataDir, [], true, true⟩, true)
    ∧ GetTorInstance (StartTorWithBootstrap env s dataDir timeout).2.1 = some t := by
  have h : StartTorWithBootstrap env s dataDir timeout =
      (.error ("failed to bootstrap Tor: " ++ msg),
       { s with torInstance := some t }, ⟨dataDir, [], true, true⟩, true) := by
    unfold StartTorWithBootstrap StartTor
    simp [hstart, hboot]
  refine ⟨h, ?_⟩
  rw [h]
  rfl

/-- Witness for C9: with an environment whose start succeeds and whose
bootstrap times out, the failed `StartTorWithBootstrap` leaves the
instance registered in the global pointer. -/
theorem c9_bootstrap_failure_keeps_instance_witness :
    GetTorInstance
      (StartTorWithBootstrap
        ⟨fun _ => Except.ok ⟨1, none⟩, fun _ _ => some "bootstrap timeout"⟩
        initialEmbedState "/tmp/tor-data" 1).2.1 = some ⟨1, none⟩ :=
  (c9_bootstrap_failure_keeps_instance
    ⟨fun _ => Except.ok ⟨1, none⟩, fun _ _ => some "bootstrap timeout"⟩
    initialEmbedState "/tmp/tor-data" 1 ⟨1, none⟩ "bootstrap timeout"
    rfl rfl).2

/-- Helper: the `StartConf` that `StartTorWithBootstrap` hands to the
external `tor.Start` always carries an empty `ExtraArgs` list. -/
theorem startTorWithBootstrap_conf (env : TorEnv) (s : EmbedState)
    (dataDir : String) (timeout : Nat) :
    (StartTorWithBootstrap env s dataDir timeout).2.2.1 =
      ⟨dataDir, [], true, true⟩ := by
  unfold StartTorWithBootstrap
  rcases hst : StartTor env s dataDir [] with ⟨r, s1, conf⟩
  have hconf : conf = ⟨dataDir, [], true, true⟩ := by
    unfold StartTor at hst
    rcases h : env.torStart ⟨dataDir, [], true, true⟩ with msg | t <;>
      · simp [h] at hst
        exact hst.2.2.symm
  cases r with
  | error msg => exact hconf
  | ok t =>
      rcases hen : env.enableNetwork t timeout with _ | msg <;> simp [hen, hconf]

/-- Spec-side rendering of the claim about `QuickStart`: start with
bootstrap at the data directory "/tmp/tor-data" and a three-minute
bootstrap timeout, passing no extra Tor arguments. -/
def QuickStartSpec (env : TorEnv) (s : EmbedState) :
    Except String TorInstance × EmbedState × StartConf × Bool :=
  StartTorWithBootstrap env s "/tmp/tor-data" (3 * timeMinute)

/-- Claim C10: `QuickStart` is extensionally equal to
`StartTorWithBootstrap` at "/tmp/tor-data" and three minutes; the start
configuration it passes to Tor carries no extra arguments (in particular
nothing derived from `DefaultConfig`'s ports via `BuildExtraArgs`, whose
output at the default configuration is non-empty), so only the `DataDir`
and `BootstrapTimeout` fields of `DefaultConfig` are used. -/
theorem c10_quickstart_equals_bootstrap_defaults (env : TorEnv)
    (s : EmbedState) :
    QuickStart env s = QuickStartSpec env s
    ∧ QuickStart env s =
        StartTorWithBootstrap env s DefaultConfig.DataDir
          DefaultConfig.BootstrapTimeout
    ∧ (QuickStart env s).2.2.1.extraArgs = []
    ∧ DefaultConfig.BuildExtraArgs ≠ [] := by
  refine ⟨rfl, rfl, ?_, by decide⟩
  have h := startTorWithBootstrap_conf env s "/tmp/tor-data" (3 * timeMinute)
  show (StartTorWithBootstrap env s "/tmp/tor-data" (3 * timeMinute)).2.2.1.extraArgs = []
  rw [h]

/-- Witness for C10 at a concrete environment and the initial state. -/
theorem c10_quickstart_equals_bootstrap_defaults_witness :
    QuickStart ⟨fun _ => Except.error "offline", fun _ _ => none⟩
        initialEmbedState =
      QuickStartSpec ⟨fun _ => Except.error "offline", fun _ _ => none⟩
        initialEmbedState :=
  (c10_quickstart_equals_bootstrap_defaults
    ⟨fun _ => Except.error "offline", fun _ _ => none⟩ initialEmbedState).1

end TorStaticBuilder
